import Mathlib

/-!
Verification development for the real-time event-distribution core of a
collaborative chat backend (socket event handlers, message service, presence
updates, connection lifecycle).

The definitions below are a shallow embedding of the TypeScript source:
  * `src/server/src/events/socket.handler.ts` (class `SocketEvents`)
  * `MessageService.sendMessage` and friends (business services)
  * the Socket.IO authentication middleware in `initializeSocketIO`
  * `UserRepository.updateOnlineStatus`, `ValidationUtil.extractMentions`

Database rows live in a `World` record; collaborator failures (a DB call
throwing) are injected explicitly, matching the `try/catch` structure of the
handlers.  Outbound socket emissions, persistence calls and disconnections are
recorded as an `Action` trace.
-/

namespace ChatCore

/-- A user row (the columns touched by the presence logic). -/
structure UserRec where
  id : String
  username : String
  isOnline : Bool
  lastSeenAt : Nat
deriving DecidableEq, Repr

/-- A stored message record, as created by `messageRepository.create`. -/
structure Message where
  id : Nat
  senderId : String
  channelId : String
  content : String
  type : String
deriving DecidableEq, Repr

/-- A stored mention record, as created by `mentionRepository.create`. -/
structure Mention where
  messageId : Nat
  mentionedUserId : String
  mentionedById : String
  type : String
  mentionText : String
  positionStart : Int
  positionEnd : Int
deriving DecidableEq, Repr

/-- The database state visible to the event core: user rows, channel
membership edges `(channelId, userId)`, message rows, mention rows and the
per-channel message counters. `nextId` models the id generator of
`messageRepository.create`. -/
structure World where
  users : List UserRec
  members : List (String × String)
  messages : List Message
  mentions : List Mention
  msgCount : List (String × Nat)
  nextId : Nat
deriving DecidableEq, Repr

/-- `channelRepository.isUserMember(channelId, userId)`: membership lookup. -/
def isUserMember (w : World) (channelId userId : String) : Bool :=
  decide ((channelId, userId) ∈ w.members)

/-- `userRepository.findByUsername(username)`. -/
def findByUsername (w : World) (username : String) : Option UserRec :=
  w.users.find? (fun u => u.username = username)

/-- `channelRepository.findUserChannels(userId)`: the channels the user is a
member of (backing `channelService.getUserChannels`). -/
def findUserChannels (w : World) (userId : String) : List String :=
  (w.members.filter (fun p => p.2 = userId)).map (fun p => p.1)

/-- `UserRepository.updateOnlineStatus(userId, isOnline)`: updates the user
row with `isOnline` and `lastSeenAt := new Date()` (the clock is the `now`
argument).  A missing row is left untouched, as in `repository.update`. -/
def updateOnlineStatus (w : World) (userId : String) (isOnline : Bool) (now : Nat) : World :=
  { w with users := w.users.map (fun u =>
      if u.id = userId then { u with isOnline := isOnline, lastSeenAt := now } else u) }

/-- `channelRepository.incrementMessageCount(channelId)`. -/
def incrementMessageCount (w : World) (channelId : String) : World :=
  { w with msgCount := w.msgCount.map (fun p =>
      if p.1 = channelId then (p.1, p.2 + 1) else p) }

/-- The stored online flag of a user (false when the row does not exist). -/
def storedOnline (w : World) (userId : String) : Bool :=
  match w.users.find? (fun u => u.id = userId) with
  | some u => u.isOnline
  | none => false

/-- Characters admitted inside a mention by the regex
`@([a-zA-Z0-9_-]\x7b3,30\x7d)` of `ValidationUtil.extractMentions`. -/
def isMentionChar (c : Char) : Bool :=
  (('a' ≤ c && c ≤ 'z') || ('A' ≤ c && c ≤ 'Z') || ('0' ≤ c && c ≤ '9')
    || c = '_' || c = '-')

/-- Left-to-right scan implementing the global regex match of
`ValidationUtil.extractMentions`: at each `@`, a greedy run of 3 to 30
mention characters yields a match (without the `@`); shorter runs match
nothing and scanning resumes after the `@`. -/
def extractMentionsAux : List Char → List (List Char)
  | [] => []
  | c :: rest =>
    if c = '@' then
      let run := rest.takeWhile isMentionChar
      if 3 ≤ run.length then
        let taken := run.take 30
        taken :: extractMentionsAux (rest.drop taken.length)
      else
        extractMentionsAux rest
    else
      extractMentionsAux rest
termination_by l => l.length
decreasing_by
  · simp only [List.length_drop, List.length_cons]
    omega
  · simp [List.length_cons]
  · simp [List.length_cons]

/-- `ValidationUtil.extractMentions(text)`. -/
def extractMentions (s : String) : List String :=
  (extractMentionsAux s.toList).map (fun l => String.mk l)

/-- Whether `pat` is an initial segment of `l` (helper for substring search). -/
def leadsWith : List Char → List Char → Bool
  | [], _ => true
  | _ :: _, [] => false
  | a :: as, b :: bs => a = b && leadsWith as bs

/-- Position of the first occurrence of `pat` in the list, if any. -/
def occurAux (pat : List Char) : List Char → Option Nat
  | [] => if pat.isEmpty then some 0 else none
  | c :: rest =>
    if leadsWith pat (c :: rest) then some 0
    else (occurAux pat rest).map (fun n => n + 1)

/-- JavaScript `text.indexOf(pat)`: first occurrence or `-1`. -/
def strIndexOf (text pat : String) : Int :=
  match occurAux pat.toList text.toList with
  | some n => (n : Int)
  | none => -1

/-- JavaScript `s.replace(pat, rep)` for a plain string pattern: replaces the
first occurrence only. -/
def replaceFirstAux (pat rep : List Char) : List Char → List Char
  | [] => []
  | c :: rest =>
    if leadsWith pat (c :: rest) then rep ++ (c :: rest).drop pat.length
    else c :: replaceFirstAux pat rep rest

/-- `authorization.replace(s1, s2)` where `s1` strips a bearer marker, as in
the handshake middleware. -/
def stripBearer (s : String) : String :=
  String.mk (replaceFirstAux ("Bearer ".toList) [] s.toList)

/-- Delivery scope of an outbound emission.  `room` is `io.to(r).emit`
(everyone in the room), `roomExceptSelf` is `socket.to(r).emit` (everyone in
the room except the emitting socket), `sock` is `socket.emit` (the one
connection), `all` is `io.emit` (every connected client). -/
inductive Target where
  | room (name : String)
  | roomExceptSelf (name sid : String)
  | sock (sid : String)
  | all
deriving DecidableEq, Repr

/-- Outbound event payloads used by the handlers. -/
inductive Payload where
  | errP (event message : String)
  | msgP (m : Message)
  | chanP (channelId : String)
  | presP (userId status : String) (timestamp : Nat)
  | typingP (userId channelId : String) (isTyping : Bool)
  | readP (userId messageId : String)
  | userP (userId : String)
deriving DecidableEq, Repr

/-- Observable effects of a handler, in program order: socket emissions,
persistence-collaborator calls, and (never produced by these handlers, but in
the vocabulary) closing a connection. -/
inductive Action where
  | emit (t : Target) (event : String) (p : Payload)
  | persistMessage (senderId channelId content type : String)
  | persistMention (m : Mention)
  | persistOnline (userId : String) (isOnline : Bool)
  | persistCount (channelId : String)
  | disconnect (sid : String)
deriving DecidableEq, Repr

/-- A registered socket: the socket id together with the `userId` attached by
the authentication middleware (`SocketWithAuth`). -/
structure SocketW where
  sid : String
  userId : String
deriving DecidableEq, Repr

/-- The room index: `(roomName, socketId)` edges.  Modelled from the spec:
the socket library's room primitive (`socket.join`, RoomDirectory in the
spec) is not part of src/; per the spec and the library it is an idempotent
insertion into a set-valued room ↔ connection index. -/
def roomJoin (rooms : List (String × String)) (roomId connId : String) :
    List (String × String) :=
  if (roomId, connId) ∈ rooms then rooms else (roomId, connId) :: rooms

/-- Modelled from the spec: `socket.leave` (RoomDirectory.leave), idempotent
removal from the room index. -/
def roomLeave (rooms : List (String × String)) (roomId connId : String) :
    List (String × String) :=
  rooms.filter (fun p => ¬(p = (roomId, connId)))

/-- The socket ids currently in a room. -/
def roomMembers (rooms : List (String × String)) (roomId : String) : List String :=
  (rooms.filter (fun p => p.1 = roomId)).map (fun p => p.2)

/-- Whether an action delivers an event to the connection `cid`, given the
room index at delivery time.  Non-emission actions deliver to nobody. -/
def deliversTo (rooms : List (String × String)) (a : Action) (cid : String) : Bool :=
  match a with
  | .emit t _ _ =>
    match t with
    | .room r => (roomMembers rooms r).contains cid
    | .roomExceptSelf r origin => (roomMembers rooms r).contains cid && cid ≠ origin
    | .sock sid => cid = sid
    | .all => true
  | _ => false

/-- The emissions of an action trace. -/
def emitsOf (acts : List Action) : List Action :=
  acts.filter (fun a => match a with | .emit _ _ _ => true | _ => false)

/-- Injected collaborator failure for `MessageService.sendMessage`: which DB
call (if any) throws, and with what error message. -/
inductive SendFail where
  | ok
  | isMemberFail (e : String)
  | createFail (e : String)
  | incrementFail (e : String)
deriving DecidableEq, Repr

/-- The mention loop of `MessageService.sendMessage`: for each extracted
username, look the user up and, when found, create a mention record with the
`indexOf`-based positions.  Returns the updated world and the persistence
calls made. -/
def mentionActions (w : World) (msgId : Nat) (senderId content : String) :
    List String → World × List Action
  | [] => (w, [])
  | u :: rest =>
    match findByUsername w u with
    | some mu =>
      let m : Mention :=
        { messageId := msgId
          mentionedUserId := mu.id
          mentionedById := senderId
          type := "user"
          mentionText := "@" ++ u
          positionStart := strIndexOf content ("@" ++ u)
          positionEnd := strIndexOf content ("@" ++ u) + (u.length : Int) + 1 }
      let w1 : World := { w with mentions := w.mentions ++ [m] }
      let r := mentionActions w1 msgId senderId content rest
      (r.1, Action.persistMention m :: r.2)
    | none => mentionActions w msgId senderId content rest

/-- `MessageService.sendMessage(senderId, channelId, content, type)`.
Checks membership (`AuthorizationError` when not a member), creates the
message row, runs the mention loop, increments the channel counter, and emits
`message:new` to the channel room via `socketManager.emitToChannel`.  Returns
the world after the calls that ran, the trace of effects, and the thrown
error or the created message. -/
def sendMessage (w : World) (f : SendFail) (senderId channelId content ty : String) :
    World × List Action × Except String Message :=
  match f with
  | .isMemberFail e => (w, [], .error e)
  | _ =>
    if !(isUserMember w channelId senderId) then
      (w, [], .error "Not a member of this channel")
    else
      match f with
      | .createFail e => (w, [], .error e)
      | _ =>
        let msg : Message :=
          { id := w.nextId, senderId := senderId, channelId := channelId
            content := content, type := ty }
        let w1 : World := { w with messages := w.messages ++ [msg], nextId := w.nextId + 1 }
        let a1 : List Action := [Action.persistMessage senderId channelId content ty]
        let r := mentionActions w1 msg.id senderId content (extractMentions content)
        match f with
        | .incrementFail e => (r.1, a1 ++ r.2, .error e)
        | _ =>
          let w3 := incrementMessageCount r.1 channelId
          (w3,
           a1 ++ r.2 ++
             [Action.persistCount channelId,
              Action.emit (.room ("channel:" ++ channelId)) "message:new" (.msgP msg)],
           .ok msg)

/-- Inbound `message:send` payload.  The handler destructures `channelId`,
`content` and `type` (the JSON may carry more fields); an absent `type` falls
back to the service default, the string for a text message. -/
structure SendData where
  channelId : String
  content : String
  type : Option String
deriving DecidableEq, Repr

/-- `SocketEvents.handleSendMessage`: calls the service inside `try/catch`;
on success broadcasts `message:new` to the channel room, on any thrown error
emits an `error` event with the error message to the originating socket
only. -/
def handleSendMessage (w : World) (f : SendFail) (s : SocketW) (d : SendData) :
    World × List Action :=
  let r := sendMessage w f s.userId d.channelId d.content (d.type.getD "text")
  match r.2.2 with
  | .ok m =>
    (r.1, r.2.1 ++ [Action.emit (.room ("channel:" ++ d.channelId)) "message:new" (.msgP m)])
  | .error e =>
    (r.1, r.2.1 ++ [Action.emit (.sock s.sid) "error" (.errP "message:send" e)])

/-- Inbound `message:typing` payload; the handler reads only `channelId` and
`isTyping`, any `userId` supplied by the client is ignored. -/
structure TypingData where
  channelId : String
  isTyping : Bool
  userId : Option String
deriving DecidableEq, Repr

/-- `SocketEvents.handleTyping`: relays `user:typing` to the channel room
excluding the originating socket, stamping the authenticated `userId`. -/
def handleTyping (s : SocketW) (d : TypingData) : List Action :=
  [Action.emit (.roomExceptSelf ("channel:" ++ d.channelId) s.sid) "user:typing"
     (.typingP s.userId d.channelId d.isTyping)]

/-- Inbound `message:read` payload; the handler reads only `messageId` and
`channelId`, any `userId` supplied by the client is ignored. -/
structure ReadData where
  messageId : String
  channelId : String
  userId : Option String
deriving DecidableEq, Repr

/-- `SocketEvents.handleMessageRead`: relays `message:read` to the channel
room excluding the originating socket, stamping the authenticated
`userId`. -/
def handleMessageRead (s : SocketW) (d : ReadData) : List Action :=
  [Action.emit (.roomExceptSelf ("channel:" ++ d.channelId) s.sid) "message:read"
     (.readP s.userId d.messageId)]

/-- `SocketEvents.handleJoinChannel`: joins the channel room and acknowledges
with `channel:joined` to the requesting socket; a thrown error (injected as
`jf`) is caught and reported to the requesting socket only.  No authorization
check is performed. -/
def handleJoinChannel (rooms : List (String × String)) (jf : Option String)
    (s : SocketW) (channelId : String) : List (String × String) × List Action :=
  match jf with
  | some e => (rooms, [Action.emit (.sock s.sid) "error" (.errP "channel:join" e)])
  | none =>
    (roomJoin rooms ("channel:" ++ channelId) s.sid,
     [Action.emit (.sock s.sid) "channel:joined" (.chanP channelId)])

/-- `SocketEvents.handleLeaveChannel`: symmetric to join. -/
def handleLeaveChannel (rooms : List (String × String)) (jf : Option String)
    (s : SocketW) (channelId : String) : List (String × String) × List Action :=
  match jf with
  | some e => (rooms, [Action.emit (.sock s.sid) "error" (.errP "channel:leave" e)])
  | none =>
    (roomLeave rooms ("channel:" ++ channelId) s.sid,
     [Action.emit (.sock s.sid) "channel:left" (.chanP channelId)])

/-- `SocketEvents.handlePresenceUpdate`: broadcasts `user:presence` with the
authenticated `userId`, the requested status and a fresh timestamp to every
connected client.  Nothing is stored. -/
def handlePresenceUpdate (s : SocketW) (status : String) (now : Nat) : List Action :=
  [Action.emit .all "user:presence" (.presP s.userId status now)]

/-- `SocketEvents.handleConnection`: joins the personal room, stores the user
as online, joins the room of every channel the user is a member of, and
broadcasts `user:online`. -/
def handleConnection (w : World) (rooms : List (String × String)) (s : SocketW)
    (now : Nat) : World × List (String × String) × List Action :=
  let rooms1 := roomJoin rooms ("user:" ++ s.userId) s.sid
  let w1 := updateOnlineStatus w s.userId true now
  let channels := findUserChannels w1 s.userId
  let rooms2 := channels.foldl (fun r c => roomJoin r ("channel:" ++ c) s.sid) rooms1
  (w1, rooms2,
   [Action.persistOnline s.userId true, Action.emit .all "user:online" (.userP s.userId)])

/-- `SocketEvents.handleDisconnect`: unconditionally stores the user as
offline and broadcasts `user:offline`; no connection count is consulted. -/
def handleDisconnect (w : World) (s : SocketW) (now : Nat) : World × List Action :=
  (updateOnlineStatus w s.userId false now,
   [Action.persistOnline s.userId false, Action.emit .all "user:offline" (.userP s.userId)])

/-- The decoded JWT claims attached to the socket by the middleware. -/
structure AuthUser where
  userId : String
  email : String
  username : String
  role : String
deriving DecidableEq, Repr

/-- The connection handshake as seen by the middleware: the optional
`auth.token` field and the optional `authorization` header. -/
structure Handshake where
  authToken : Option String
  headerAuthorization : Option String
deriving DecidableEq, Repr

/-- Token resolution of the middleware: `auth.token` when truthy (JavaScript
`||` treats the empty string as falsy), otherwise the `authorization` header
with the bearer marker stripped, when that header is present. -/
def resolveToken (hs : Handshake) : Option String :=
  match hs.authToken with
  | some t => if t = "" then hs.headerAuthorization.map stripBearer else some t
  | none => hs.headerAuthorization.map stripBearer

/-- The Socket.IO authentication middleware of `initializeSocketIO`: reject
when no (truthy) token resolves; verify the token with the auth collaborator
`verify` (`verifyToken`); on success attach the decoded user, on a thrown
verification error reject the connection. -/
def authMiddleware (verify : String → Except String AuthUser) (hs : Handshake) :
    Except String AuthUser :=
  match resolveToken hs with
  | none => .error "Authentication token is required"
  | some t =>
    if t = "" then .error "Authentication token is required"
    else
      match verify t with
      | .ok u => .ok u
      | .error _ => .error "Authentication failed"

/-- The per-process server state: the database world, the registered
(authenticated) sockets, and the room index. -/
structure SState where
  world : World
  conns : List SocketW
  rooms : List (String × String)
deriving DecidableEq, Repr

/-- Inbound transport events.  `connect` carries the handshake; failure
injections (`SendFail`, the optional thrown error of join/leave) travel with
the event; `now` parameters model the wall clock reads. -/
inductive Event where
  | connect (sid : String) (hs : Handshake) (now : Nat)
  | disconnect (sid : String) (now : Nat)
  | msgSend (sid : String) (d : SendData) (f : SendFail)
  | typing (sid : String) (d : TypingData)
  | msgRead (sid : String) (d : ReadData)
  | chJoin (sid : String) (channelId : String) (jf : Option String)
  | chLeave (sid : String) (channelId : String) (jf : Option String)
  | presenceUpd (sid : String) (status : String) (now : Nat)
deriving DecidableEq, Repr

/-- Socket lookup used by the dispatch: events arrive only from sockets the
transport still knows about. -/
def findConn (st : SState) (sid : String) : Option SocketW :=
  st.conns.find? (fun s => s.sid = sid)

/-- One transport event processed against the server state: the middleware
gate plus `SocketEvents.registerEvents` dispatch.  A rejected handshake never
registers the socket; a `disconnect` removes the socket and its room edges
(library teardown) and then runs `handleDisconnect`; events from unknown
sockets do nothing (the library does not dispatch them). -/
def step (verify : String → Except String AuthUser) (st : SState) (ev : Event) :
    SState × List Action :=
  match ev with
  | .connect sid hs now =>
    match authMiddleware verify hs with
    | .error _ => (st, [])
    | .ok u =>
      let s : SocketW := { sid := sid, userId := u.userId }
      let r := handleConnection st.world st.rooms s now
      ({ world := r.1, conns := s :: st.conns, rooms := r.2.1 }, r.2.2)
  | .disconnect sid now =>
    match findConn st sid with
    | none => (st, [])
    | some s =>
      let conns1 := st.conns.filter (fun c => c.sid ≠ sid)
      let rooms1 := st.rooms.filter (fun p => p.2 ≠ sid)
      let r := handleDisconnect st.world s now
      ({ world := r.1, conns := conns1, rooms := rooms1 }, r.2)
  | .msgSend sid d f =>
    match findConn st sid with
    | none => (st, [])
    | some s =>
      let r := handleSendMessage st.world f s d
      ({ st with world := r.1 }, r.2)
  | .typing sid d =>
    match findConn st sid with
    | none => (st, [])
    | some s => (st, handleTyping s d)
  | .msgRead sid d =>
    match findConn st sid with
    | none => (st, [])
    | some s => (st, handleMessageRead s d)
  | .chJoin sid channelId jf =>
    match findConn st sid with
    | none => (st, [])
    | some s =>
      let r := handleJoinChannel st.rooms jf s channelId
      ({ st with rooms := r.1 }, r.2)
  | .chLeave sid channelId jf =>
    match findConn st sid with
    | none => (st, [])
    | some s =>
      let r := handleLeaveChannel st.rooms jf s channelId
      ({ st with rooms := r.1 }, r.2)
  | .presenceUpd sid status now =>
    match findConn st sid with
    | none => (st, [])
    | some s => (st, handlePresenceUpdate s status now)

/-- Fold a sequence of transport events through `step`. -/
def runEvents (verify : String → Except String AuthUser) (st : SState) :
    List Event → SState
  | [] => st
  | e :: rest => runEvents verify (step verify st e).1 rest

/-- The number of live connections of a user. -/
def connCount (st : SState) (userId : String) : Nat :=
  (st.conns.filter (fun s => s.userId = userId)).length

/-- The number of `user:offline` broadcasts for a user in a trace. -/
def offlineEmits (acts : List Action) (userId : String) : Nat :=
  (acts.filter (fun a => a = Action.emit .all "user:offline" (.userP userId))).length

/-! ### Shared lemmas -/

/-- The mention loop never touches the message table. -/
theorem mentionActions_messages (msgId : Nat) (senderId content : String)
    (us : List String) : ∀ w : World,
    (mentionActions w msgId senderId content us).1.messages = w.messages := by
  induction us with
  | nil => intro w; rfl
  | cons u rest ih =>
    intro w
    unfold mentionActions
    cases h : findByUsername w u with
    | some mu => simpa using ih _
    | none => simpa using ih w

/-- Every effect of the mention loop is a mention-persistence call. -/
theorem mentionActions_trace (msgId : Nat) (senderId content : String)
    (us : List String) : ∀ (w : World), ∀ a ∈ (mentionActions w msgId senderId content us).2,
    ∃ m, a = Action.persistMention m := by
  induction us with
  | nil => intro w a ha; simp [mentionActions] at ha
  | cons u rest ih =>
    intro w a ha
    unfold mentionActions at ha
    cases h : findByUsername w u with
    | some mu =>
      rw [h] at ha
      simp only [List.mem_cons] at ha
      rcases ha with rfl | ha
      · exact ⟨_, rfl⟩
      · exact ih _ a ha
    | none =>
      rw [h] at ha
      exact ih w a ha

/-- The mention loop emits nothing to sockets. -/
theorem mentionActions_emits (msgId : Nat) (senderId content : String)
    (us : List String) (w : World) :
    emitsOf (mentionActions w msgId senderId content us).2 = [] := by
  rw [emitsOf, List.filter_eq_nil_iff]
  intro a ha
  obtain ⟨m, rfl⟩ := mentionActions_trace msgId senderId content us w a ha
  simp

/-- Updating a user row commutes with looking the row up by id. -/
theorem find_updateRow (l : List UserRec) (uid : String) (b : Bool) (now : Nat) :
    (l.map (fun u => if u.id = uid then { u with isOnline := b, lastSeenAt := now } else u)).find?
        (fun u => u.id = uid) =
      (l.find? (fun u => u.id = uid)).map
        (fun u => { u with isOnline := b, lastSeenAt := now }) := by
  induction l with
  | nil => rfl
  | cons a t ih =>
    by_cases ha : a.id = uid
    · simp [ha]
    · simp [ha, ih]

/-- After `updateOnlineStatus` the stored flag of the updated user is the
written value when the row exists, and `false` (no row) otherwise. -/
theorem storedOnline_update (w : World) (uid : String) (b : Bool) (now : Nat) :
    storedOnline (updateOnlineStatus w uid b now) uid =
      match w.users.find? (fun u => u.id = uid) with
      | some _ => b
      | none => false := by
  unfold storedOnline updateOnlineStatus
  rw [find_updateRow]
  cases w.users.find? (fun u => u.id = uid) <;> rfl

/-- Writing `false` always leaves the stored flag `false`. -/
theorem storedOnline_update_false (w : World) (uid : String) (now : Nat) :
    storedOnline (updateOnlineStatus w uid false now) uid = false := by
  rw [storedOnline_update]
  cases w.users.find? (fun u => u.id = uid) <;> rfl

/-! ### Example inputs shared by witnesses and counterexamples -/

/-- A directory world where `u1` is a member of `r1` only and has a user
row. -/
def wEx : World :=
  { users := [{ id := "u1", username := "alice", isOnline := false, lastSeenAt := 0 }]
    members := [("r1", "u1")]
    messages := []
    mentions := []
    msgCount := [("r1", 0)]
    nextId := 0 }

/-- Connection `A`, authenticated as `u1`. -/
def sEx : SocketW := { sid := "A", userId := "u1" }

/-- A token verifier accepting exactly the token of `u1`. -/
def verifyEx : String → Except String AuthUser := fun t =>
  if t = "tok-u1" then
    .ok { userId := "u1", email := "u1@x", username := "alice", role := "member" }
  else .error "invalid token"

/-- The handshake carrying the valid token of `u1`. -/
def hsEx : Handshake := { authToken := some "tok-u1", headerAuthorization := none }

/-! ### C1 -/

/-- C1: an inbound message:send whose sender is not a member of the target
channel makes no persistence call and no broadcast: the world is returned
unchanged and the only action is an error event of the form
(event message:send, message) emitted to the originating connection, which is
never delivered to any other connection; no disconnection occurs. -/
theorem sendNotMember_rejected (w : World) (s : SocketW) (d : SendData)
    (h : (d.channelId, s.userId) ∉ w.members) :
    handleSendMessage w .ok s d =
      (w, [Action.emit (.sock s.sid) "error"
            (.errP "message:send" "Not a member of this channel")]) ∧
    (∀ rooms cid, deliversTo rooms
        (Action.emit (.sock s.sid) "error"
          (.errP "message:send" "Not a member of this channel")) cid = true →
      cid = s.sid) := by
  constructor
  · have hm : isUserMember w d.channelId s.userId = false := by
      simp [isUserMember, h]
    simp [handleSendMessage, sendMessage, hm]
  · intro rooms cid hc
    simpa [deliversTo] using hc

/-- C1 witness: connection A (user u1, not a member of r2) sending to r2. -/
theorem sendNotMember_rejected_witness :
    ("r2", "u1") ∉ wEx.members ∧
    handleSendMessage wEx .ok sEx { channelId := "r2", content := "hi", type := some "text" } =
      (wEx, [Action.emit (.sock "A") "error"
              (.errP "message:send" "Not a member of this channel")]) :=
  ⟨by decide,
   (sendNotMember_rejected wEx sEx
      { channelId := "r2", content := "hi", type := some "text" } (by decide)).1⟩

/-! ### C2 -/

/-- C2 counterexample: user u1 is not a member of channel r2, yet handling
channel:join adds connection A to the room channel:r2 and acknowledges with
channel:joined — no authorization happens before the join, refuting the
claim that an unauthorized connection is not added to the room. -/
theorem joinWithoutAuth_counterexample :
    isUserMember wEx "r2" "u1" = false ∧
    ("channel:r2", "A") ∈
      (step verifyEx { world := wEx, conns := [sEx], rooms := [] }
        (.chJoin "A" "r2" none)).1.rooms ∧
    Action.emit (.sock "A") "channel:joined" (.chanP "r2") ∈
      (step verifyEx { world := wEx, conns := [sEx], rooms := [] }
        (.chJoin "A" "r2" none)).2 := by
  decide

/-- C2 amended: the channel:join handler performs no authorization check —
for every requesting connection, member or not, the connection is added to
the room (idempotent insert) and the channel:joined acknowledgement is
emitted to the requesting connection only, never delivered to any other
connection. -/
theorem joinNoAuthCheck (rooms : List (String × String)) (s : SocketW) (cid : String) :
    handleJoinChannel rooms none s cid =
      (roomJoin rooms ("channel:" ++ cid) s.sid,
       [Action.emit (.sock s.sid) "channel:joined" (.chanP cid)]) ∧
    (∀ rooms2 c, deliversTo rooms2
        (Action.emit (.sock s.sid) "channel:joined" (.chanP cid)) c = true →
      c = s.sid) := by
  refine ⟨rfl, ?_⟩
  intro rooms2 c hc
  simpa [deliversTo] using hc

/-- C2 amended witness: joining r2 from connection A. -/
theorem joinNoAuthCheck_witness :
    handleJoinChannel [] none sEx "r2" =
      (roomJoin [] ("channel:" ++ "r2") "A",
       [Action.emit (.sock "A") "channel:joined" (.chanP "r2")]) ∧
    ("B" = "A" → False) ∧
    (deliversTo [("channel:" ++ "r2", "B")]
        (Action.emit (.sock "A") "channel:joined" (.chanP "r2")) "B" = true → "B" = "A") :=
  ⟨(joinNoAuthCheck [] sEx "r2").1, by decide,
   (joinNoAuthCheck [] sEx "r2").2 [("channel:" ++ "r2", "B")] "B"⟩

/-! ### C7 -/

/-- Inserting an edge that is already present changes nothing. -/
theorem roomJoin_idem (rooms : List (String × String)) (r c : String) :
    roomJoin (roomJoin rooms r c) r c = roomJoin rooms r c := by
  by_cases h : (r, c) ∈ rooms
  · simp [roomJoin, h]
  · simp [roomJoin, h]

/-- C7: handling channel:join twice for the same (roomId, connectionId) pair
leaves the room membership state identical to handling it once — join is an
idempotent set insertion, so no duplicate membership edge is created. -/
theorem joinTwice_idempotent (rooms : List (String × String)) (s : SocketW)
    (cid : String) :
    (handleJoinChannel (handleJoinChannel rooms none s cid).1 none s cid).1 =
      (handleJoinChannel rooms none s cid).1 := by
  simp [handleJoinChannel, roomJoin_idem]

/-! ### C3 -/

/-- C3 counterexample: user u1 opens two connections (c1, c2) and loses c1.
The live connection count is still 1, yet the stored status is offline and a
user:offline broadcast was fired on this non-final disconnect — refuting the
offline ⇔ zero-connections invariant and the only-on-1-to-0 emission rule. -/
theorem presenceInvariant_counterexample :
    connCount
        (step verifyEx
          (runEvents verifyEx
            { world := wEx, conns := [], rooms := [] }
            [.connect "c1" hsEx 1, .connect "c2" hsEx 2])
          (.disconnect "c1" 3)).1 "u1" = 1 ∧
    storedOnline
        (step verifyEx
          (runEvents verifyEx
            { world := wEx, conns := [], rooms := [] }
            [.connect "c1" hsEx 1, .connect "c2" hsEx 2])
          (.disconnect "c1" 3)).1.world "u1" = false ∧
    offlineEmits
        (step verifyEx
          (runEvents verifyEx
            { world := wEx, conns := [], rooms := [] }
            [.connect "c1" hsEx 1, .connect "c2" hsEx 2])
          (.disconnect "c1" 3)).2 "u1" = 1 := by
  decide

/-- C3 amended: the stored status tracks the most recent lifecycle event, not
the connection count — processing a disconnect of a registered connection
always stores offline for that user and always broadcasts user:offline, even
when other live connections of the same user remain. -/
theorem disconnectStoresOffline (verify : String → Except String AuthUser)
    (st : SState) (sid : String) (now : Nat) (s : SocketW)
    (h : findConn st sid = some s) :
    storedOnline (step verify st (.disconnect sid now)).1.world s.userId = false ∧
    Action.emit .all "user:offline" (.userP s.userId) ∈
      (step verify st (.disconnect sid now)).2 := by
  simp only [step, h, handleDisconnect]
  exact ⟨storedOnline_update_false st.world s.userId now, by simp⟩

/-- C3 amended witness: disconnecting c1 while c2 stays live. -/
theorem disconnectStoresOffline_witness :
    findConn { world := wEx, conns := [{ sid := "c1", userId := "u1" },
                { sid := "c2", userId := "u1" }], rooms := [] } "c1" =
      some { sid := "c1", userId := "u1" } ∧
    storedOnline
        (step verifyEx
          { world := wEx, conns := [{ sid := "c1", userId := "u1" },
              { sid := "c2", userId := "u1" }], rooms := [] }
          (.disconnect "c1" 3)).1.world "u1" = false :=
  ⟨by decide,
   (disconnectStoresOffline verifyEx
      { world := wEx, conns := [{ sid := "c1", userId := "u1" },
          { sid := "c2", userId := "u1" }], rooms := [] }
      "c1" 3 { sid := "c1", userId := "u1" } (by decide)).1⟩

/-! ### C5 -/

/-- C5 counterexample: invoking disconnect-processing a second time for the
same already-processed connection fires a second user:offline broadcast,
refuting the claimed idempotence (and no set of room ids is returned at
all). -/
theorem unregisterTwice_counterexample :
    offlineEmits
      (handleDisconnect (handleDisconnect wEx sEx 5).1 sEx 6).2 "u1" = 1 := by
  decide

/-- C5 amended: disconnect-processing raises no error when repeated, but it
is not idempotent at the handler level — every invocation of the disconnect
handler emits exactly one user:offline for the socket's user, so a second
invocation fires a duplicate; a repeated disconnect event is harmless only
because the transport no longer dispatches it (the step for an unknown
connection id is a no-op with no actions), and no set of rooms is returned. -/
theorem disconnectNotIdempotent (w : World) (s : SocketW) (n1 n2 : Nat) :
    offlineEmits (handleDisconnect w s n1).2 s.userId = 1 ∧
    offlineEmits (handleDisconnect (handleDisconnect w s n1).1 s n2).2 s.userId = 1 ∧
    (∀ (verify : String → Except String AuthUser) (st : SState) (sid : String) (now : Nat),
      findConn st sid = none → step verify st (.disconnect sid now) = (st, [])) := by
  refine ⟨?_, ?_, ?_⟩
  · simp [offlineEmits, handleDisconnect]
  · simp [offlineEmits, handleDisconnect]
  · intro verify st sid now h
    simp [step, h]

/-- C5 amended witness: the no-op branch for an unknown connection id, and
the duplicate emission on a re-invoked handler. -/
theorem disconnectNotIdempotent_witness :
    offlineEmits (handleDisconnect wEx sEx 5).2 "u1" = 1 ∧
    findConn { world := wEx, conns := [], rooms := [] } "gone" = none ∧
    step verifyEx { world := wEx, conns := [], rooms := [] } (.disconnect "gone" 9) =
      ({ world := wEx, conns := [], rooms := [] }, []) :=
  ⟨(disconnectNotIdempotent wEx sEx 5 6).1, by decide,
   (disconnectNotIdempotent wEx sEx 5 6).2.2 verifyEx
     { world := wEx, conns := [], rooms := [] } "gone" 9 (by decide)⟩

/-! ### C6 -/

/-- C6 counterexample: handling presence:update (status away) leaves the
entire server state — including every stored user row — unchanged: no
tracked presence status is updated, refuting the claim that the handler
updates the tracked explicit presence status before broadcasting. -/
theorem presenceUpdate_counterexample :
    (step verifyEx { world := wEx, conns := [sEx], rooms := [] }
        (.presenceUpd "A" "away" 7)).1 =
      { world := wEx, conns := [sEx], rooms := [] } ∧
    (step verifyEx { world := wEx, conns := [sEx], rooms := [] }
        (.presenceUpd "A" "away" 7)).2 =
      [Action.emit .all "user:presence" (.presP "u1" "away" 7)] := by
  decide

/-- C6 amended: handling presence:update changes no stored state and no
connection count — the server state is returned unchanged — and only
broadcasts user:presence (userId, status, timestamp) to every connected
client, with the userId taken from the authenticated socket. -/
theorem presenceUpdateOnlyBroadcasts (verify : String → Except String AuthUser)
    (st : SState) (sid status : String) (now : Nat) (s : SocketW)
    (h : findConn st sid = some s) :
    (step verify st (.presenceUpd sid status now)).1 = st ∧
    (step verify st (.presenceUpd sid status now)).2 =
      [Action.emit .all "user:presence" (.presP s.userId status now)] := by
  simp [step, h, handlePresenceUpdate]

/-- C6 amended witness: an away update from connection A. -/
theorem presenceUpdateOnlyBroadcasts_witness :
    findConn { world := wEx, conns := [sEx], rooms := [] } "A" = some sEx ∧
    (step verifyEx { world := wEx, conns := [sEx], rooms := [] }
        (.presenceUpd "A" "away" 7)).1 =
      { world := wEx, conns := [sEx], rooms := [] } :=
  ⟨by decide,
   (presenceUpdateOnlyBroadcasts verifyEx
      { world := wEx, conns := [sEx], rooms := [] } "A" "away" 7 sEx (by decide)).1⟩

/-! ### C4 -/

/-- The message record a successful send creates, with the service default
for a missing type. -/
def newMessageOf (w : World) (s : SocketW) (d : SendData) : Message :=
  { id := w.nextId, senderId := s.userId, channelId := d.channelId
    content := d.content, type := d.type.getD "text" }

/-- C4: a message:send from a channel member stores exactly one message
record carrying the sender, channel, content and type, and a message:new
event carrying that record is broadcast to the channel room, hence delivered
to every connection currently in the room — the sender's own connection
included, as the room target does not exclude the origin. -/
theorem memberSend_persistsAndBroadcasts (w : World) (s : SocketW) (d : SendData)
    (rooms : List (String × String))
    (h : (d.channelId, s.userId) ∈ w.members) :
    (handleSendMessage w .ok s d).1.messages = w.messages ++ [newMessageOf w s d] ∧
    Action.emit (.room ("channel:" ++ d.channelId)) "message:new"
        (.msgP (newMessageOf w s d)) ∈ (handleSendMessage w .ok s d).2 ∧
    (∀ cid, cid ∈ roomMembers rooms ("channel:" ++ d.channelId) →
      deliversTo rooms
        (Action.emit (.room ("channel:" ++ d.channelId)) "message:new"
          (.msgP (newMessageOf w s d))) cid = true) := by
  have hm : isUserMember w d.channelId s.userId = true := by
    simp [isUserMember, h]
  refine ⟨?_, ?_, ?_⟩
  · simp [handleSendMessage, sendMessage, hm, incrementMessageCount,
      mentionActions_messages, newMessageOf]
  · simp [handleSendMessage, sendMessage, hm, newMessageOf]
  · intro cid hcid
    simp [deliversTo, hcid]

/-- C4 witness: member u1 sends "hi" to r1; the room holds A (sender) and B,
and both receive the broadcast. -/
theorem memberSend_persistsAndBroadcasts_witness :
    ("r1", "u1") ∈ wEx.members ∧
    (handleSendMessage wEx .ok sEx
        { channelId := "r1", content := "hi", type := some "text" }).1.messages =
      wEx.messages ++
        [newMessageOf wEx sEx { channelId := "r1", content := "hi", type := some "text" }] ∧
    deliversTo [("channel:" ++ "r1", "A"), ("channel:" ++ "r1", "B")]
        (Action.emit (.room ("channel:" ++ "r1")) "message:new"
          (.msgP (newMessageOf wEx sEx
            { channelId := "r1", content := "hi", type := some "text" }))) "A" = true ∧
    deliversTo [("channel:" ++ "r1", "A"), ("channel:" ++ "r1", "B")]
        (Action.emit (.room ("channel:" ++ "r1")) "message:new"
          (.msgP (newMessageOf wEx sEx
            { channelId := "r1", content := "hi", type := some "text" }))) "B" = true :=
  ⟨by decide,
   (memberSend_persistsAndBroadcasts wEx sEx
      { channelId := "r1", content := "hi", type := some "text" }
      [("channel:" ++ "r1", "A"), ("channel:" ++ "r1", "B")] (by decide)).1,
   (memberSend_persistsAndBroadcasts wEx sEx
      { channelId := "r1", content := "hi", type := some "text" }
      [("channel:" ++ "r1", "A"), ("channel:" ++ "r1", "B")] (by decide)).2.2 "A" (by decide),
   (memberSend_persistsAndBroadcasts wEx sEx
      { channelId := "r1", content := "hi", type := some "text" }
      [("channel:" ++ "r1", "A"), ("channel:" ++ "r1", "B")] (by decide)).2.2 "B" (by decide)⟩

/-! ### C8 -/

/-- Whether an action closes a connection. -/
def isDisc (a : Action) : Bool :=
  match a with
  | .disconnect _ => true
  | _ => false

/-- `emitsOf` distributes over concatenation. -/
theorem emitsOf_append (l1 l2 : List Action) :
    emitsOf (l1 ++ l2) = emitsOf l1 ++ emitsOf l2 :=
  List.filter_append l1 l2

/-- The mention loop closes no connection. -/
theorem mentionActions_no_disc (msgId : Nat) (senderId content : String)
    (us : List String) (w : World) :
    (mentionActions w msgId senderId content us).2.filter isDisc = [] := by
  rw [List.filter_eq_nil_iff]
  intro a ha
  obtain ⟨m, rfl⟩ := mentionActions_trace msgId senderId content us w a ha
  simp [isDisc]

/-- Whenever the send service throws, the effects it ran before throwing
contain no socket emission. -/
theorem sendMessage_error_emits (w : World) (f : SendFail)
    (senderId channelId content ty e : String)
    (h : (sendMessage w f senderId channelId content ty).2.2 = .error e) :
    emitsOf (sendMessage w f senderId channelId content ty).2.1 = [] := by
  cases f with
  | isMemberFail e1 => rfl
  | ok =>
    by_cases hm : isUserMember w channelId senderId
    · exfalso
      simp [sendMessage, hm] at h
    · simp [sendMessage, hm, emitsOf]
  | createFail e1 =>
    by_cases hm : isUserMember w channelId senderId
    · simp [sendMessage, hm, emitsOf]
    · simp [sendMessage, hm, emitsOf]
  | incrementFail e1 =>
    by_cases hm : isUserMember w channelId senderId
    · simp only [sendMessage, hm, Bool.not_true, Bool.false_eq_true, if_false]
      rw [emitsOf_append]
      rw [mentionActions_emits]
      rfl
    · simp [sendMessage, hm, emitsOf]

/-- The send service never closes a connection. -/
theorem sendMessage_no_disc (w : World) (f : SendFail)
    (senderId channelId content ty : String) :
    (sendMessage w f senderId channelId content ty).2.1.filter isDisc = [] := by
  cases f with
  | isMemberFail e1 => rfl
  | ok =>
    by_cases hm : isUserMember w channelId senderId
    · simp [sendMessage, hm, List.filter_append, mentionActions_no_disc, isDisc]
    · simp [sendMessage, hm]
  | createFail e1 =>
    by_cases hm : isUserMember w channelId senderId
    · simp [sendMessage, hm]
    · simp [sendMessage, hm]
  | incrementFail e1 =>
    by_cases hm : isUserMember w channelId senderId
    · simp [sendMessage, hm, List.filter_append, mentionActions_no_disc, isDisc]
    · simp [sendMessage, hm]

/-- C8: every error thrown by a collaborator while handling message:send,
channel:join or channel:leave is caught at the handler boundary and turned
into a single error emission to the originating connection: the handler's
emissions are exactly that one error event, an event targeted at one socket
is never delivered to another connection, and no action closes the
session. -/
theorem errorsScopedToOrigin (w : World) (f : SendFail) (s : SocketW) (d : SendData)
    (rooms : List (String × String)) (cid e0 e1 : String)
    (h : (sendMessage w f s.userId d.channelId d.content (d.type.getD "text")).2.2 =
      .error e0) :
    emitsOf (handleSendMessage w f s d).2 =
      [Action.emit (.sock s.sid) "error" (.errP "message:send" e0)] ∧
    handleJoinChannel rooms (some e1) s cid =
      (rooms, [Action.emit (.sock s.sid) "error" (.errP "channel:join" e1)]) ∧
    handleLeaveChannel rooms (some e1) s cid =
      (rooms, [Action.emit (.sock s.sid) "error" (.errP "channel:leave" e1)]) ∧
    (handleSendMessage w f s d).2.filter isDisc = [] ∧
    (∀ rooms2 c ev p, deliversTo rooms2 (Action.emit (.sock s.sid) ev p) c = true →
      c = s.sid) := by
  refine ⟨?_, rfl, rfl, ?_, ?_⟩
  · simp only [handleSendMessage, h]
    rw [emitsOf_append, sendMessage_error_emits w f s.userId d.channelId d.content
      (d.type.getD "text") e0 h]
    rfl
  · simp only [handleSendMessage, h]
    rw [List.filter_append, sendMessage_no_disc]
    rfl
  · intro rooms2 c ev p hc
    simpa [deliversTo] using hc

/-- C8 witness: a createMessage failure on a member send, plus a join
failure. -/
theorem errorsScopedToOrigin_witness :
    (sendMessage wEx (.createFail "db down") "u1" "r1" "hi" "text").2.2 =
      Except.error "db down" ∧
    emitsOf (handleSendMessage wEx (.createFail "db down") sEx
        { channelId := "r1", content := "hi", type := some "text" }).2 =
      [Action.emit (.sock "A") "error" (.errP "message:send" "db down")] ∧
    handleJoinChannel [] (some "adapter gone") sEx "r1" =
      ([], [Action.emit (.sock "A") "error" (.errP "channel:join" "adapter gone")]) :=
  ⟨by rfl,
   (errorsScopedToOrigin wEx (.createFail "db down") sEx
      { channelId := "r1", content := "hi", type := some "text" }
      [] "r1" "db down" "adapter gone" (by rfl)).1,
   (errorsScopedToOrigin wEx (.createFail "db down") sEx
      { channelId := "r1", content := "hi", type := some "text" }
      [] "r1" "db down" "adapter gone" (by rfl)).2.1⟩

/-! ### C9 -/

/-- C9: the middleware gate — a handshake with no (truthy) token or a token
the verifier rejects yields an authentication error and the socket is never
registered (state and actions unchanged); a verified handshake registers the
socket with exactly the verified userId; and across every transport event, a
socket present afterwards either was already registered (its userId
untouched, since sockets are immutable values) or is the one just registered
from a successful handshake. -/
theorem authGateAndImmutableUserId (verify : String → Except String AuthUser)
    (st : SState) (sid : String) (hs : Handshake) (now : Nat) :
    (resolveToken hs = none →
      authMiddleware verify hs = .error "Authentication token is required") ∧
    (∀ t e, resolveToken hs = some t → ¬(t = "") → verify t = .error e →
      authMiddleware verify hs = .error "Authentication failed") ∧
    (∀ e, authMiddleware verify hs = .error e →
      step verify st (.connect sid hs now) = (st, [])) ∧
    (∀ u, authMiddleware verify hs = .ok u →
      (step verify st (.connect sid hs now)).1.conns =
        { sid := sid, userId := u.userId } :: st.conns) ∧
    (∀ (ev : Event) (c : SocketW), c ∈ (step verify st ev).1.conns →
      c ∈ st.conns ∨
      ∃ hs2 now2 u2, ev = .connect c.sid hs2 now2 ∧
        authMiddleware verify hs2 = .ok u2 ∧ c.userId = u2.userId) := by
  refine ⟨?_, ?_, ?_, ?_, ?_⟩
  · intro h
    simp [authMiddleware, h]
  · intro t e h ht hv
    simp [authMiddleware, h, ht, hv]
  · intro e h
    simp [step, h]
  · intro u h
    simp [step, h, handleConnection]
  · intro ev c hc
    cases ev with
    | connect sid2 hs2 now2 =>
      simp only [step] at hc
      cases hA : authMiddleware verify hs2 with
      | error e =>
        rw [hA] at hc
        exact Or.inl hc
      | ok u =>
        rw [hA] at hc
        simp only [List.mem_cons] at hc
        rcases hc with rfl | hc
        · exact Or.inr ⟨hs2, now2, u, rfl, hA, rfl⟩
        · exact Or.inl hc
    | disconnect sid2 now2 =>
      simp only [step] at hc
      cases hF : findConn st sid2 with
      | none =>
        rw [hF] at hc
        exact Or.inl hc
      | some s =>
        rw [hF] at hc
        exact Or.inl (List.mem_of_mem_filter hc)
    | msgSend sid2 d f =>
      simp only [step] at hc
      cases hF : findConn st sid2 with
      | none => rw [hF] at hc; exact Or.inl hc
      | some s => rw [hF] at hc; exact Or.inl hc
    | typing sid2 d =>
      simp only [step] at hc
      cases hF : findConn st sid2 with
      | none => rw [hF] at hc; exact Or.inl hc
      | some s => rw [hF] at hc; exact Or.inl hc
    | msgRead sid2 d =>
      simp only [step] at hc
      cases hF : findConn st sid2 with
      | none => rw [hF] at hc; exact Or.inl hc
      | some s => rw [hF] at hc; exact Or.inl hc
    | chJoin sid2 ch jf =>
      simp only [step] at hc
      cases hF : findConn st sid2 with
      | none => rw [hF] at hc; exact Or.inl hc
      | some s => rw [hF] at hc; exact Or.inl hc
    | chLeave sid2 ch jf =>
      simp only [step] at hc
      cases hF : findConn st sid2 with
      | none => rw [hF] at hc; exact Or.inl hc
      | some s => rw [hF] at hc; exact Or.inl hc
    | presenceUpd sid2 status now2 =>
      simp only [step] at hc
      cases hF : findConn st sid2 with
      | none => rw [hF] at hc; exact Or.inl hc
      | some s => rw [hF] at hc; exact Or.inl hc

/-- C9 witness: a missing token and a bad token are rejected without
registration; the valid token of u1 registers exactly one socket carrying
u1. -/
theorem authGateAndImmutableUserId_witness :
    authMiddleware verifyEx { authToken := none, headerAuthorization := none } =
      .error "Authentication token is required" ∧
    step verifyEx { world := wEx, conns := [], rooms := [] }
        (.connect "c1" { authToken := some "bad", headerAuthorization := none } 1) =
      ({ world := wEx, conns := [], rooms := [] }, []) ∧
    (step verifyEx { world := wEx, conns := [], rooms := [] }
        (.connect "c1" hsEx 1)).1.conns = [{ sid := "c1", userId := "u1" }] :=
  ⟨(authGateAndImmutableUserId verifyEx { world := wEx, conns := [], rooms := [] }
      "c1" { authToken := none, headerAuthorization := none } 1).1 (by decide),
   (authGateAndImmutableUserId verifyEx { world := wEx, conns := [], rooms := [] }
      "c1" { authToken := some "bad", headerAuthorization := none } 1).2.2.1
     "Authentication failed" (by rfl),
   (authGateAndImmutableUserId verifyEx { world := wEx, conns := [], rooms := [] }
      "c1" hsEx 1).2.2.2.1
     { userId := "u1", email := "u1@x", username := "alice", role := "member" } (by rfl)⟩

/-! ### C10 -/

/-- C10: the typing and read handlers relay to the channel room excluding the
originating connection — the origin never receives the relayed event, while
every other connection in the room does — and the outbound userId is the
socket's authenticated userId, for every inbound payload including one
carrying its own userId field (which is ignored). -/
theorem typingReadRelayExcludesOrigin (s : SocketW) (dt : TypingData)
    (dr : ReadData) (rooms : List (String × String)) :
    handleTyping s dt =
      [Action.emit (.roomExceptSelf ("channel:" ++ dt.channelId) s.sid) "user:typing"
        (.typingP s.userId dt.channelId dt.isTyping)] ∧
    handleMessageRead s dr =
      [Action.emit (.roomExceptSelf ("channel:" ++ dr.channelId) s.sid) "message:read"
        (.readP s.userId dr.messageId)] ∧
    deliversTo rooms
      (Action.emit (.roomExceptSelf ("channel:" ++ dt.channelId) s.sid) "user:typing"
        (.typingP s.userId dt.channelId dt.isTyping)) s.sid = false ∧
    deliversTo rooms
      (Action.emit (.roomExceptSelf ("channel:" ++ dr.channelId) s.sid) "message:read"
        (.readP s.userId dr.messageId)) s.sid = false ∧
    (∀ c, c ∈ roomMembers rooms ("channel:" ++ dt.channelId) → ¬(c = s.sid) →
      deliversTo rooms
        (Action.emit (.roomExceptSelf ("channel:" ++ dt.channelId) s.sid) "user:typing"
          (.typingP s.userId dt.channelId dt.isTyping)) c = true) ∧
    (∀ c, c ∈ roomMembers rooms ("channel:" ++ dr.channelId) → ¬(c = s.sid) →
      deliversTo rooms
        (Action.emit (.roomExceptSelf ("channel:" ++ dr.channelId) s.sid) "message:read"
          (.readP s.userId dr.messageId)) c = true) := by
  refine ⟨rfl, rfl, ?_, ?_, ?_, ?_⟩
  · simp [deliversTo]
  · simp [deliversTo]
  · intro c hc hne
    simp [deliversTo, hc, hne]
  · intro c hc hne
    simp [deliversTo, hc, hne]

/-- C10 witness: a typing payload smuggling a foreign userId is relayed with
the authenticated userId u1 to B but not back to the origin A. -/
theorem typingReadRelayExcludesOrigin_witness :
    handleTyping sEx { channelId := "r1", isTyping := true, userId := some "mallory" } =
      [Action.emit (.roomExceptSelf ("channel:" ++ "r1") "A") "user:typing"
        (.typingP "u1" "r1" true)] ∧
    deliversTo [("channel:" ++ "r1", "A"), ("channel:" ++ "r1", "B")]
      (Action.emit (.roomExceptSelf ("channel:" ++ "r1") "A") "user:typing"
        (.typingP "u1" "r1" true)) "A" = false ∧
    deliversTo [("channel:" ++ "r1", "A"), ("channel:" ++ "r1", "B")]
      (Action.emit (.roomExceptSelf ("channel:" ++ "r1") "A") "user:typing"
        (.typingP "u1" "r1" true)) "B" = true :=
  ⟨(typingReadRelayExcludesOrigin sEx
      { channelId := "r1", isTyping := true, userId := some "mallory" }
      { messageId := "m1", channelId := "r1", userId := none }
      [("channel:" ++ "r1", "A"), ("channel:" ++ "r1", "B")]).1,
   (typingReadRelayExcludesOrigin sEx
      { channelId := "r1", isTyping := true, userId := some "mallory" }
      { messageId := "m1", channelId := "r1", userId := none }
      [("channel:" ++ "r1", "A"), ("channel:" ++ "r1", "B")]).2.2.1,
   (typingReadRelayExcludesOrigin sEx
      { channelId := "r1", isTyping := true, userId := some "mallory" }
      { messageId := "m1", channelId := "r1", userId := none }
      [("channel:" ++ "r1", "A"), ("channel:" ++ "r1", "B")]).2.2.2.2.1 "B"
     (by decide) (by decide)⟩

end ChatCore
